import Mathlib

/-!
# matioCpp conversion utilities

A shallow embedding of `src/src/ConversionUtilities.cpp`: the forward mapper
`matioCpp::get_matio_types` and the metadata classifier
`matioCpp::get_types_from_matvart`, followed by the properties proved about them.

Conventions of the embedding:
* a C++ reference output parameter is a pair (value held before the call, value
  held after the call): the functions take the prior values as arguments and
  return the final values next to the `bool` result;
* `size_t` is an unsigned 64-bit integer, a `Nat` reduced modulo `2 ^ 64`
  after every multiplication;
* `int rank` is an `Int`;
* `dims` is the array the record points to, a `List Nat`; reading `dims[i]`
  past its end is undefined behaviour, which the classifier reports as `none`.
-/

namespace matioCpp

/-- Modelled from the spec: the enumeration `matioCpp::VariableType` is declared in
`matioCpp/ForwardDeclarations.h`, which is not among the sources; the enumerators are
the ones `ConversionUtilities.cpp` names. -/
inductive VariableType where
  | Element
  | Vector
  | MultiDimensionalArray
  | Struct
  | CellArray
  | VariableArray
  | Unsupported
  deriving DecidableEq

/-- Modelled from the spec: the enumeration `matioCpp::ValueType` is declared in
`matioCpp/ForwardDeclarations.h`, which is not among the sources; the enumerators are
the ones `ConversionUtilities.cpp` names. -/
inductive ValueType where
  | INT8
  | UINT8
  | INT16
  | UINT16
  | INT32
  | UINT32
  | SINGLE
  | DOUBLE
  | INT64
  | UINT64
  | UTF8
  | UTF16
  | UTF32
  | STRING
  | VARIABLE
  | UNSUPPORTED
  deriving DecidableEq

/-- Modelled from the spec: the enumeration `matio_types` (data-type codes) is declared in
`matio.h` of the matio library, which is not among the sources. The named constructors
are the enumerators `ConversionUtilities.cpp` uses, pairwise distinct codes;
`unlisted code` is any other integer the `data_type` field may hold (a C enumeration
is an integer, and the `switch` of the classifier has no `default`). -/
inductive matio_types where
  | MAT_T_UNKNOWN
  | MAT_T_INT8
  | MAT_T_UINT8
  | MAT_T_INT16
  | MAT_T_UINT16
  | MAT_T_INT32
  | MAT_T_UINT32
  | MAT_T_SINGLE
  | MAT_T_DOUBLE
  | MAT_T_INT64
  | MAT_T_UINT64
  | MAT_T_MATRIX
  | MAT_T_COMPRESSED
  | MAT_T_UTF8
  | MAT_T_UTF16
  | MAT_T_UTF32
  | MAT_T_STRING
  | MAT_T_CELL
  | MAT_T_STRUCT
  | MAT_T_ARRAY
  | MAT_T_FUNCTION
  | unlisted (code : Int)
  deriving DecidableEq

/-- Modelled from the spec: the enumeration `matio_classes` (storage-class codes) is
declared in `matio.h` of the matio library, which is not among the sources. The named
constructors are the enumerators `ConversionUtilities.cpp` uses, pairwise distinct codes;
`unlisted code` is any other value of the `class_type` field (such as the empty class). -/
inductive matio_classes where
  | MAT_C_CELL
  | MAT_C_STRUCT
  | MAT_C_OBJECT
  | MAT_C_CHAR
  | MAT_C_SPARSE
  | MAT_C_DOUBLE
  | MAT_C_SINGLE
  | MAT_C_INT8
  | MAT_C_UINT8
  | MAT_C_INT16
  | MAT_C_UINT16
  | MAT_C_INT32
  | MAT_C_UINT32
  | MAT_C_INT64
  | MAT_C_UINT64
  | MAT_C_FUNCTION
  | MAT_C_OPAQUE
  | unlisted (code : Int)
  deriving DecidableEq

/-- Modelled from the spec: the record `matvar_t` is declared in `matio.h` of the matio
library, which is not among the sources; these are the four fields the classifier reads.
`dims` is the whole array behind the pointer, so its length is the number of readable
entries; an entry is a `size_t`, hence below `2 ^ 64` in every record that exists in
memory. -/
structure matvar_t where
  rank : Int
  dims : List Nat
  class_type : matio_classes
  data_type : matio_types
  deriving DecidableEq

/-- The modulus of `size_t` arithmetic (64-bit). -/
def SIZE_T_MODULUS : Nat := 2 ^ 64

open VariableType ValueType matio_types matio_classes

/-- `matioCpp::get_matio_types` (ConversionUtilities.cpp, lines 13-97).
`outputMatioClasses` and `outputMatioType` are the values the two reference parameters
hold before the call; the result is the returned `bool` with their values after it. -/
def get_matio_types (inputVariableType : VariableType) (inputValueType : ValueType)
    (outputMatioClasses : matio_classes) (outputMatioType : matio_types) :
    Bool × matio_classes × matio_types :=
  if inputVariableType = Element ∨ inputVariableType = Vector ∨
      inputVariableType = MultiDimensionalArray then
    match inputValueType with
    | INT8 => (true, MAT_C_INT8, MAT_T_INT8)
    | UINT8 => (true, MAT_C_UINT8, MAT_T_UINT8)
    | INT16 => (true, MAT_C_INT16, MAT_T_INT16)
    | UINT16 => (true, MAT_C_UINT16, MAT_T_UINT16)
    | INT32 => (true, MAT_C_INT32, MAT_T_INT32)
    | UINT32 => (true, MAT_C_UINT32, MAT_T_UINT32)
    | SINGLE => (true, MAT_C_SINGLE, MAT_T_SINGLE)
    | DOUBLE => (true, MAT_C_DOUBLE, MAT_T_DOUBLE)
    | INT64 => (true, MAT_C_INT64, MAT_T_INT64)
    | UINT64 => (true, MAT_C_UINT64, MAT_T_UINT64)
    | UTF8 => (true, MAT_C_CHAR, MAT_T_UTF8)
    | UTF16 => (true, MAT_C_CHAR, MAT_T_UTF16)
    | UTF32 => (true, MAT_C_CHAR, MAT_T_UTF32)
    | STRING => (true, MAT_C_CHAR, MAT_T_STRING)
    | _ => (false, outputMatioClasses, outputMatioType)
  else if inputVariableType = Struct ∨ inputVariableType = VariableArray then
    (true, MAT_C_STRUCT, MAT_T_STRUCT)
  else if inputVariableType = CellArray then
    (true, MAT_C_CELL, MAT_T_CELL)
  else
    (false, outputMatioClasses, outputMatioType)

/-- The `switch (input->data_type)` of `get_types_from_matvart` (lines 106-161): the
value of `outputValueType` after it. The switch has no `default`, so a code it does not
list leaves the value held before the call. -/
def switchDataType (data_type : matio_types) (outputValueType : ValueType) : ValueType :=
  match data_type with
  | MAT_T_INT8 => INT8
  | MAT_T_UINT8 => UINT8
  | MAT_T_INT16 => INT16
  | MAT_T_UINT16 => UINT16
  | MAT_T_INT32 => INT32
  | MAT_T_UINT32 => UINT32
  | MAT_T_SINGLE => SINGLE
  | MAT_T_DOUBLE => DOUBLE
  | MAT_T_INT64 => INT64
  | MAT_T_UINT64 => UINT64
  | MAT_T_UTF8 => UTF8
  | MAT_T_UTF16 => UTF16
  | MAT_T_UTF32 => UTF32
  | MAT_T_STRING => STRING
  | MAT_T_CELL => VARIABLE
  | MAT_T_STRUCT => VARIABLE
  | MAT_T_ARRAY => VARIABLE
  | MAT_T_MATRIX => VARIABLE
  | MAT_T_COMPRESSED => UNSUPPORTED
  | MAT_T_FUNCTION => UNSUPPORTED
  | MAT_T_UNKNOWN => UNSUPPORTED
  | matio_types.unlisted _ => outputValueType

/-- The loop `for (int i = 0; i < input->rank; ++i) dimensionsProduct *= input->dims[i];`
(lines 175-178), with `n` iterations left, the index at `i` and the running product
`dimensionsProduct`. The whole loop is `dimensionsProductLoop dims rank.toNat 0 1`.
A read past the end of `dims` gives `none`. -/
def dimensionsProductLoop (dims : List Nat) : Nat → Nat → Nat → Option Nat
  | 0, _, dimensionsProduct => some dimensionsProduct
  | n + 1, i, dimensionsProduct =>
    match dims[i]? with
    | none => none
    | some d => dimensionsProductLoop dims n (i + 1) ((dimensionsProduct * d) % SIZE_T_MODULUS)

/-- The test `(input->rank == 2) && ((input->dims[0] == 1) || (input->dims[1] == 1))`
(line 205), evaluated left to right with short circuit; `none` when an entry of `dims`
that is read does not exist. -/
def isVectorShape (input : matvar_t) : Option Bool :=
  if input.rank = 2 then
    match input.dims[0]? with
    | none => none
    | some d0 =>
      if d0 = 1 then some true
      else
        match input.dims[1]? with
        | none => none
        | some d1 => some (decide (d1 = 1))
  else
    some false

/-- `matioCpp::get_types_from_matvart` (ConversionUtilities.cpp, lines 99-216).
`input` is the pointer (`none` for a null pointer); `outputVariableType` and
`outputValueType` are the values the two reference parameters hold before the call.
The result is `some (returned bool, variable type after, value type after)`, or `none`
when the call reads `dims` out of bounds. -/
def get_types_from_matvart (input : Option matvar_t) (outputVariableType : VariableType)
    (outputValueType : ValueType) : Option (Bool × VariableType × ValueType) :=
  match input with
  | none => some (false, outputVariableType, outputValueType)
  | some input =>
    let outputValueType := switchDataType input.data_type outputValueType
    if input.class_type = MAT_C_OBJECT ∨ input.class_type = MAT_C_SPARSE ∨
        input.class_type = MAT_C_FUNCTION ∨ input.class_type = MAT_C_OPAQUE ∨
        outputValueType = UNSUPPORTED ∨ input.rank < 2 then
      some (true, Unsupported, outputValueType)
    else
      match dimensionsProductLoop input.dims input.rank.toNat 0 1 with
      | none => none
      | some dimensionsProduct =>
        if input.class_type = MAT_C_CELL ∨ input.data_type = MAT_T_CELL then
          some (true, CellArray, outputValueType)
        else if dimensionsProduct = 1 then
          if input.data_type = MAT_T_STRUCT then
            some (true, Struct, outputValueType)
          else if input.data_type = MAT_T_ARRAY ∨ input.data_type = MAT_T_MATRIX then
            some (true, VariableArray, outputValueType)
          else
            some (true, Element, outputValueType)
        else
          if input.data_type = MAT_T_STRUCT ∨ input.data_type = MAT_T_ARRAY ∨
              input.data_type = MAT_T_MATRIX then
            some (true, VariableArray, outputValueType)
          else
            match isVectorShape input with
            | none => none
            | some true => some (true, Vector, outputValueType)
            | some false => some (true, MultiDimensionalArray, outputValueType)

/-- The entries of `dims` the product loop multiplies: the first `rank` ones. -/
def matvar_t.loopDims (input : matvar_t) : List Nat :=
  input.dims.take input.rank.toNat

/-- The exact (unbounded) product of the first `rank` entries of `dims`: the total
element count of the record. -/
def matvar_t.elementCount (input : matvar_t) : Nat :=
  input.loopDims.prod

/-- Every index below `rank` is an entry of `dims`: the record is one the classifier
reads without leaving the array. -/
def matvar_t.dimsReadable (input : matvar_t) : Prop :=
  input.rank.toNat ≤ input.dims.length

instance (input : matvar_t) : Decidable input.dimsReadable :=
  inferInstanceAs (Decidable (input.rank.toNat ≤ input.dims.length))

/-- The code table of the specification (§4.2 step 2), written from its words: each of
the 14 scalar data-type codes has the value type of the same name, the cell, struct, array
and matrix markers have VARIABLE, and compressed, function and unknown have UNSUPPORTED.
A code outside the enumeration has no entry. -/
def spec_valueTypeOfCode : matio_types → Option ValueType
  | MAT_T_INT8 => some INT8
  | MAT_T_UINT8 => some UINT8
  | MAT_T_INT16 => some INT16
  | MAT_T_UINT16 => some UINT16
  | MAT_T_INT32 => some INT32
  | MAT_T_UINT32 => some UINT32
  | MAT_T_INT64 => some INT64
  | MAT_T_UINT64 => some UINT64
  | MAT_T_SINGLE => some SINGLE
  | MAT_T_DOUBLE => some DOUBLE
  | MAT_T_UTF8 => some UTF8
  | MAT_T_UTF16 => some UTF16
  | MAT_T_UTF32 => some UTF32
  | MAT_T_STRING => some STRING
  | MAT_T_CELL => some VARIABLE
  | MAT_T_STRUCT => some VARIABLE
  | MAT_T_ARRAY => some VARIABLE
  | MAT_T_MATRIX => some VARIABLE
  | MAT_T_COMPRESSED => some UNSUPPORTED
  | MAT_T_FUNCTION => some UNSUPPORTED
  | MAT_T_UNKNOWN => some UNSUPPORTED
  | matio_types.unlisted _ => none

/-- The 14 scalar data-type codes: the 8 integer codes, SINGLE, DOUBLE, the 3 UTF codes
and STRING. -/
def isScalarCode : matio_types → Bool
  | MAT_T_INT8 | MAT_T_UINT8 | MAT_T_INT16 | MAT_T_UINT16 | MAT_T_INT32 | MAT_T_UINT32
  | MAT_T_INT64 | MAT_T_UINT64 | MAT_T_SINGLE | MAT_T_DOUBLE | MAT_T_UTF8 | MAT_T_UTF16
  | MAT_T_UTF32 | MAT_T_STRING => true
  | _ => false

/-- The classes the classifier does not interpret: object, sparse, function, opaque. -/
def isUninterpretedClass : matio_classes → Bool
  | MAT_C_OBJECT | MAT_C_SPARSE | MAT_C_FUNCTION | MAT_C_OPAQUE => true
  | _ => false

/-- The record has rank 2 and one of its two axes equal to 1. -/
def matvar_t.hasUnitAxis (input : matvar_t) : Prop :=
  input.rank = 2 ∧ (input.dims[0]? = some 1 ∨ input.dims[1]? = some 1)

instance (input : matvar_t) : Decidable input.hasUnitAxis :=
  inferInstanceAs (Decidable (input.rank = 2 ∧ (input.dims[0]? = some 1 ∨ input.dims[1]? = some 1)))

/-- The shape of dims that fits a kind, for the round trip through the raw codes: an
element count of 1 for Element and Struct; rank 2 with an axis equal to 1 and an element
count above 1 for Vector; an element count above 1 without the vector shape for
MultiDimensionalArray; an element count above 1 for VariableArray and CellArray. -/
def shapeOfKind (k : VariableType) (input : matvar_t) : Prop :=
  match k with
  | Element => input.elementCount = 1
  | Struct => input.elementCount = 1
  | Vector => input.hasUnitAxis ∧ 1 < input.elementCount
  | MultiDimensionalArray => 1 < input.elementCount ∧ ¬ input.hasUnitAxis
  | VariableArray => 1 < input.elementCount
  | CellArray => 1 < input.elementCount
  | Unsupported => True

instance (k : VariableType) (input : matvar_t) : Decidable (shapeOfKind k input) := by
  cases k <;> unfold shapeOfKind <;> infer_instance

/-- The 14 scalar value types: every value type but VARIABLE and UNSUPPORTED. -/
def isScalarValueType : ValueType → Bool
  | VARIABLE | UNSUPPORTED => false
  | _ => true

/-! ## The product loop -/

theorem dimensionsProductLoop_eq (dims : List Nat) :
    ∀ (n i acc : Nat), i + n ≤ dims.length → acc < SIZE_T_MODULUS →
      dimensionsProductLoop dims n i acc
        = some ((acc * ((dims.drop i).take n).prod) % SIZE_T_MODULUS) := by
  intro n
  induction n with
  | zero =>
    intro i acc _ hacc
    simp [dimensionsProductLoop, Nat.mod_eq_of_lt hacc]
  | succ n ih =>
    intro i acc hlen _
    have hi : i < dims.length := by omega
    have hpos : 0 < SIZE_T_MODULUS := by unfold SIZE_T_MODULUS; positivity
    rw [dimensionsProductLoop, List.getElem?_eq_getElem hi]
    simp only []
    rw [ih (i + 1) _ (by omega) (Nat.mod_lt _ hpos)]
    rw [List.drop_eq_getElem_cons hi, List.take_succ_cons, List.prod_cons]
    congr 1
    rw [Nat.mod_mul_mod, Nat.mul_assoc]

theorem dimensionsProductLoop_readable (input : matvar_t) (h : input.dimsReadable) :
    dimensionsProductLoop input.dims input.rank.toNat 0 1
      = some (input.elementCount % SIZE_T_MODULUS) := by
  have h1 : (1 : Nat) < SIZE_T_MODULUS := by unfold SIZE_T_MODULUS; norm_num
  have h0 : 0 + input.rank.toNat ≤ input.dims.length := by
    unfold matvar_t.dimsReadable at h
    omega
  rw [dimensionsProductLoop_eq input.dims input.rank.toNat 0 1 h0 h1]
  simp [matvar_t.elementCount, matvar_t.loopDims]

theorem isVectorShape_readable (input : matvar_t) (h : input.dimsReadable) :
    isVectorShape input
      = some (decide (input.rank = 2 ∧ (input.dims[0]? = some 1 ∨ input.dims[1]? = some 1))) := by
  unfold isVectorShape
  by_cases hr : input.rank = 2
  · have hlen : 2 ≤ input.dims.length := by
      have := h
      unfold matvar_t.dimsReadable at this
      rw [hr] at this
      simpa using this
    have h0 : 0 < input.dims.length := by omega
    have h1 : 1 < input.dims.length := by omega
    simp only [hr, if_true, List.getElem?_eq_getElem h0, List.getElem?_eq_getElem h1]
    by_cases hd0 : input.dims[0] = 1
    · simp [hd0]
    · simp [hd0]
  · simp [hr]

/-! ## The forward mapper -/

/-- C2: for each of the kinds Element, Vector and MultiDimensionalArray and each of the
14 scalar value types, `get_matio_types` succeeds with the pair of the fixed table: the
numeric types give the class and data-type code of the same name, UTF8, UTF16, UTF32 and
STRING give the class MAT_C_CHAR with the data-type code of the same name. The pairs do
not mention the kind, so the result is the same for the three kinds. -/
theorem get_matio_types_scalar_table (k : VariableType) (c0 : matio_classes) (t0 : matio_types)
    (hk : k = Element ∨ k = Vector ∨ k = MultiDimensionalArray) :
    get_matio_types k INT8 c0 t0 = (true, MAT_C_INT8, MAT_T_INT8) ∧
    get_matio_types k UINT8 c0 t0 = (true, MAT_C_UINT8, MAT_T_UINT8) ∧
    get_matio_types k INT16 c0 t0 = (true, MAT_C_INT16, MAT_T_INT16) ∧
    get_matio_types k UINT16 c0 t0 = (true, MAT_C_UINT16, MAT_T_UINT16) ∧
    get_matio_types k INT32 c0 t0 = (true, MAT_C_INT32, MAT_T_INT32) ∧
    get_matio_types k UINT32 c0 t0 = (true, MAT_C_UINT32, MAT_T_UINT32) ∧
    get_matio_types k INT64 c0 t0 = (true, MAT_C_INT64, MAT_T_INT64) ∧
    get_matio_types k UINT64 c0 t0 = (true, MAT_C_UINT64, MAT_T_UINT64) ∧
    get_matio_types k SINGLE c0 t0 = (true, MAT_C_SINGLE, MAT_T_SINGLE) ∧
    get_matio_types k DOUBLE c0 t0 = (true, MAT_C_DOUBLE, MAT_T_DOUBLE) ∧
    get_matio_types k UTF8 c0 t0 = (true, MAT_C_CHAR, MAT_T_UTF8) ∧
    get_matio_types k UTF16 c0 t0 = (true, MAT_C_CHAR, MAT_T_UTF16) ∧
    get_matio_types k UTF32 c0 t0 = (true, MAT_C_CHAR, MAT_T_UTF32) ∧
    get_matio_types k STRING c0 t0 = (true, MAT_C_CHAR, MAT_T_STRING) := by
  rcases hk with rfl | rfl | rfl <;>
    exact ⟨rfl, rfl, rfl, rfl, rfl, rfl, rfl, rfl, rfl, rfl, rfl, rfl, rfl, rfl⟩

/-- Witness of C2 at the kind Vector, the outputs holding the cell codes before the call. -/
theorem get_matio_types_scalar_table_witness :
    (Vector = Element ∨ Vector = Vector ∨ Vector = MultiDimensionalArray) ∧
    get_matio_types Vector DOUBLE MAT_C_CELL MAT_T_CELL = (true, MAT_C_DOUBLE, MAT_T_DOUBLE) ∧
    get_matio_types Vector STRING MAT_C_CELL MAT_T_CELL = (true, MAT_C_CHAR, MAT_T_STRING) :=
  ⟨by decide,
   (get_matio_types_scalar_table Vector MAT_C_CELL MAT_T_CELL (by decide)).2.2.2.2.2.2.2.2.2.1,
   (get_matio_types_scalar_table Vector MAT_C_CELL MAT_T_CELL (by decide)).2.2.2.2.2.2.2.2.2.2.2.2.2⟩

/-- C3: `get_matio_types` is defined on every (variable kind, value type) combination, and
it returns `false` exactly when the kind is Unsupported, or the kind is Element, Vector or
MultiDimensionalArray and the value type is VARIABLE or UNSUPPORTED; on every other
combination it returns `true`. -/
theorem get_matio_types_fails_iff (k : VariableType) (v : ValueType) (c0 : matio_classes)
    (t0 : matio_types) :
    ∃ ok c t, get_matio_types k v c0 t0 = (ok, c, t) ∧
      (ok = false ↔
        (k = Unsupported ∨
          ((k = Element ∨ k = Vector ∨ k = MultiDimensionalArray) ∧
            (v = VARIABLE ∨ v = UNSUPPORTED)))) ∧
      (ok = true ↔
        ¬ (k = Unsupported ∨
          ((k = Element ∨ k = Vector ∨ k = MultiDimensionalArray) ∧
            (v = VARIABLE ∨ v = UNSUPPORTED)))) := by
  cases k <;> cases v <;> simp [get_matio_types]

/-- C4: whatever the value type (VARIABLE and UNSUPPORTED included), `get_matio_types`
succeeds on Struct and on VariableArray with (MAT_C_STRUCT, MAT_T_STRUCT) and on CellArray
with (MAT_C_CELL, MAT_T_CELL). -/
theorem get_matio_types_struct_cell (v : ValueType) (c0 : matio_classes) (t0 : matio_types) :
    get_matio_types Struct v c0 t0 = (true, MAT_C_STRUCT, MAT_T_STRUCT) ∧
    get_matio_types VariableArray v c0 t0 = (true, MAT_C_STRUCT, MAT_T_STRUCT) ∧
    get_matio_types CellArray v c0 t0 = (true, MAT_C_CELL, MAT_T_CELL) :=
  ⟨rfl, rfl, rfl⟩

/-! ## The metadata classifier -/

theorem get_types_from_matvart_early_exit (input : matvar_t) (k0 : VariableType) (v0 : ValueType)
    (h : isUninterpretedClass input.class_type = true ∨
      switchDataType input.data_type v0 = UNSUPPORTED ∨ input.rank < 2) :
    get_types_from_matvart (some input) k0 v0
      = some (true, Unsupported, switchDataType input.data_type v0) := by
  have hc : input.class_type = MAT_C_OBJECT ∨ input.class_type = MAT_C_SPARSE ∨
      input.class_type = MAT_C_FUNCTION ∨ input.class_type = MAT_C_OPAQUE ∨
      switchDataType input.data_type v0 = UNSUPPORTED ∨ input.rank < 2 := by
    rcases h with h | h | h
    · cases hct : input.class_type <;> simp [hct, isUninterpretedClass] at h ⊢
    · exact Or.inr (Or.inr (Or.inr (Or.inr (Or.inl h))))
    · exact Or.inr (Or.inr (Or.inr (Or.inr (Or.inr h))))
  simp only [get_types_from_matvart, if_pos hc]

theorem get_types_from_matvart_past_exit (input : matvar_t) (k0 : VariableType) (v0 : ValueType)
    (hread : input.dimsReadable) (hclass : isUninterpretedClass input.class_type = false)
    (hv : switchDataType input.data_type v0 ≠ UNSUPPORTED) (hrank : 2 ≤ input.rank) :
    get_types_from_matvart (some input) k0 v0
      = some (true,
          (if input.class_type = MAT_C_CELL ∨ input.data_type = MAT_T_CELL then CellArray
           else if input.elementCount % SIZE_T_MODULUS = 1 then
             (if input.data_type = MAT_T_STRUCT then Struct
              else if input.data_type = MAT_T_ARRAY ∨ input.data_type = MAT_T_MATRIX then
                VariableArray
              else Element)
           else if input.data_type = MAT_T_STRUCT ∨ input.data_type = MAT_T_ARRAY ∨
               input.data_type = MAT_T_MATRIX then VariableArray
           else if input.rank = 2 ∧ (input.dims[0]? = some 1 ∨ input.dims[1]? = some 1) then
             Vector
           else MultiDimensionalArray),
          switchDataType input.data_type v0) := by
  have hc : ¬ (input.class_type = MAT_C_OBJECT ∨ input.class_type = MAT_C_SPARSE ∨
      input.class_type = MAT_C_FUNCTION ∨ input.class_type = MAT_C_OPAQUE ∨
      switchDataType input.data_type v0 = UNSUPPORTED ∨ input.rank < 2) := by
    rintro (h | h | h | h | h | h)
    · simp [h, isUninterpretedClass] at hclass
    · simp [h, isUninterpretedClass] at hclass
    · simp [h, isUninterpretedClass] at hclass
    · simp [h, isUninterpretedClass] at hclass
    · exact hv h
    · omega
  simp only [get_types_from_matvart, if_neg hc, dimensionsProductLoop_readable input hread,
    isVectorShape_readable input hread]
  by_cases hvec : input.rank = 2 ∧ (input.dims[0]? = some 1 ∨ input.dims[1]? = some 1)
  · rw [decide_eq_true hvec]
    simp only [if_pos hvec]
    split_ifs <;> rfl
  · rw [decide_eq_false hvec]
    simp only [if_neg hvec]
    split_ifs <;> rfl

theorem switchDataType_of_table (data_type : matio_types) (v0 v : ValueType)
    (h : spec_valueTypeOfCode data_type = some v) : switchDataType data_type v0 = v := by
  cases data_type <;> simp [spec_valueTypeOfCode] at h <;> subst h <;> rfl

theorem get_types_from_matvart_defined (input : matvar_t) (k0 : VariableType) (v0 : ValueType)
    (hread : input.dimsReadable) :
    ∃ k, get_types_from_matvart (some input) k0 v0
      = some (true, k, switchDataType input.data_type v0) := by
  by_cases h : isUninterpretedClass input.class_type = true ∨
      switchDataType input.data_type v0 = UNSUPPORTED ∨ input.rank < 2
  · exact ⟨Unsupported, get_types_from_matvart_early_exit input k0 v0 h⟩
  · have hclass : isUninterpretedClass input.class_type = false := by
      cases hb : isUninterpretedClass input.class_type
      · rfl
      · exact absurd (Or.inl hb) h
    have hv : switchDataType input.data_type v0 ≠ UNSUPPORTED :=
      fun hv => h (Or.inr (Or.inl hv))
    have hrank : 2 ≤ input.rank := by
      by_contra hlt
      exact h (Or.inr (Or.inr (by omega)))
    exact ⟨_, get_types_from_matvart_past_exit input k0 v0 hread hclass hv hrank⟩

/-- C5: on a non-null record (whose first `rank` dims exist), the value type
`get_types_from_matvart` returns is the entry of the code table for the data-type code,
whatever the rank, the dims, the class code and the prior outputs: the scalar codes give
the value type of the same name, cell, struct, array and matrix give VARIABLE, and
compressed, function and unknown give UNSUPPORTED. -/
theorem get_types_from_matvart_value_type (input : matvar_t) (k0 : VariableType)
    (v0 v : ValueType) (hread : input.dimsReadable)
    (htable : spec_valueTypeOfCode input.data_type = some v) :
    ∃ k, get_types_from_matvart (some input) k0 v0 = some (true, k, v) := by
  obtain ⟨k, hk⟩ := get_types_from_matvart_defined input k0 v0 hread
  rw [switchDataType_of_table input.data_type v0 v htable] at hk
  exact ⟨k, hk⟩

/-- Witness of C5: a 3 x 4 record of class DOUBLE with the UINT16 data-type code has
value type UINT16. -/
theorem get_types_from_matvart_value_type_witness :
    matvar_t.dimsReadable ⟨2, [3, 4], MAT_C_DOUBLE, MAT_T_UINT16⟩ ∧
    spec_valueTypeOfCode MAT_T_UINT16 = some UINT16 ∧
    ∃ k, get_types_from_matvart (some ⟨2, [3, 4], MAT_C_DOUBLE, MAT_T_UINT16⟩) Element INT8
      = some (true, k, UINT16) :=
  ⟨by decide, rfl,
   get_types_from_matvart_value_type ⟨2, [3, 4], MAT_C_DOUBLE, MAT_T_UINT16⟩ Element INT8 UINT16
     (by decide) rfl⟩

/-- C6: `get_types_from_matvart` returns `false` if and only if the record is null. On a
null record it returns `false`; on every non-null record (whose first `rank` dims exist)
it returns `true` with a verdict, and the verdict is the kind Unsupported when the class
is object, sparse, function or opaque, when the data type is compressed, function or
unknown, or when the rank is below 2. -/
theorem get_types_from_matvart_false_iff_null (input : Option matvar_t) (k0 : VariableType)
    (v0 : ValueType) (hread : ∀ r, input = some r → r.dimsReadable) :
    ∃ ok k v, get_types_from_matvart input k0 v0 = some (ok, k, v) ∧
      (ok = false ↔ input = none) ∧
      (∀ r, input = some r →
        (isUninterpretedClass r.class_type = true ∨
          r.data_type = MAT_T_COMPRESSED ∨ r.data_type = MAT_T_FUNCTION ∨
          r.data_type = MAT_T_UNKNOWN ∨ r.rank < 2) →
        k = Unsupported) := by
  cases input with
  | none => exact ⟨false, k0, v0, rfl, by simp, by simp⟩
  | some r =>
    obtain ⟨k, hk⟩ := get_types_from_matvart_defined r k0 v0 (hread r rfl)
    refine ⟨true, k, _, hk, by simp, ?_⟩
    intro r2 hr2 hex
    cases hr2
    have hexit : isUninterpretedClass r.class_type = true ∨
        switchDataType r.data_type v0 = UNSUPPORTED ∨ r.rank < 2 := by
      rcases hex with h | h | h | h | h
      · exact Or.inl h
      · exact Or.inr (Or.inl (by rw [h]; rfl))
      · exact Or.inr (Or.inl (by rw [h]; rfl))
      · exact Or.inr (Or.inl (by rw [h]; rfl))
      · exact Or.inr (Or.inr h)
    rw [get_types_from_matvart_early_exit r k0 v0 hexit] at hk
    simp only [Option.some.injEq, Prod.mk.injEq, true_and] at hk
    exact hk.1.symm

/-- Witness of C6: a rank-1 record of the sparse class with an unknown data type is
classified (success) as Unsupported. -/
theorem get_types_from_matvart_false_iff_null_witness :
    (∀ r, some (⟨1, [7], MAT_C_SPARSE, MAT_T_UNKNOWN⟩ : matvar_t) = some r → r.dimsReadable) ∧
    ∃ ok k v, get_types_from_matvart (some ⟨1, [7], MAT_C_SPARSE, MAT_T_UNKNOWN⟩) Element INT8
        = some (ok, k, v) ∧
      (ok = false ↔ some (⟨1, [7], MAT_C_SPARSE, MAT_T_UNKNOWN⟩ : matvar_t) = none) ∧
      (∀ r, some (⟨1, [7], MAT_C_SPARSE, MAT_T_UNKNOWN⟩ : matvar_t) = some r →
        (isUninterpretedClass r.class_type = true ∨
          r.data_type = MAT_T_COMPRESSED ∨ r.data_type = MAT_T_FUNCTION ∨
          r.data_type = MAT_T_UNKNOWN ∨ r.rank < 2) →
        k = Unsupported) :=
  ⟨by intro r hr; cases hr; decide,
   get_types_from_matvart_false_iff_null (some ⟨1, [7], MAT_C_SPARSE, MAT_T_UNKNOWN⟩) Element INT8
     (by intro r hr; cases hr; decide)⟩

/-- C7 (rank guard): on a non-null record with rank below 2 (0, 1 or negative)
`get_types_from_matvart` succeeds with the kind Unsupported, whatever the dims, the class
code and the data-type code. -/
theorem get_types_from_matvart_rank_guard (input : matvar_t) (k0 : VariableType)
    (v0 : ValueType) (hrank : input.rank < 2) :
    get_types_from_matvart (some input) k0 v0
      = some (true, Unsupported, switchDataType input.data_type v0) :=
  get_types_from_matvart_early_exit input k0 v0 (Or.inr (Or.inr hrank))

/-- Witness of C7: a rank-1 record of 5 doubles, and a record of negative rank without
dims. -/
theorem get_types_from_matvart_rank_guard_witness :
    ((1 : Int) < 2 ∧
      get_types_from_matvart (some ⟨1, [5], MAT_C_DOUBLE, MAT_T_DOUBLE⟩) Element INT8
        = some (true, Unsupported, DOUBLE)) ∧
    ((-3 : Int) < 2 ∧
      get_types_from_matvart (some ⟨-3, [], MAT_C_CELL, MAT_T_CELL⟩) Element INT8
        = some (true, Unsupported, VARIABLE)) :=
  ⟨⟨by decide,
    get_types_from_matvart_rank_guard ⟨1, [5], MAT_C_DOUBLE, MAT_T_DOUBLE⟩ Element INT8
      (by decide)⟩,
   ⟨by decide,
    get_types_from_matvart_rank_guard ⟨-3, [], MAT_C_CELL, MAT_T_CELL⟩ Element INT8
      (by decide)⟩⟩

/-- C8: on a non-null record whose class code is object, sparse, function or opaque
`get_types_from_matvart` succeeds with the kind Unsupported, whatever the rank, the dims
and the data-type code (a cell or struct marker included). -/
theorem get_types_from_matvart_uninterpreted_class (input : matvar_t) (k0 : VariableType)
    (v0 : ValueType)
    (hclass : input.class_type = MAT_C_OBJECT ∨ input.class_type = MAT_C_SPARSE ∨
      input.class_type = MAT_C_FUNCTION ∨ input.class_type = MAT_C_OPAQUE) :
    get_types_from_matvart (some input) k0 v0
      = some (true, Unsupported, switchDataType input.data_type v0) := by
  apply get_types_from_matvart_early_exit
  left
  rcases hclass with h | h | h | h <;> rw [h] <;> rfl

/-- Witness of C8: an opaque-class 1 x 1 record carrying the cell marker. -/
theorem get_types_from_matvart_uninterpreted_class_witness :
    (MAT_C_OPAQUE = MAT_C_OBJECT ∨ MAT_C_OPAQUE = MAT_C_SPARSE ∨
      MAT_C_OPAQUE = MAT_C_FUNCTION ∨ MAT_C_OPAQUE = MAT_C_OPAQUE) ∧
    get_types_from_matvart (some ⟨2, [1, 1], MAT_C_OPAQUE, MAT_T_CELL⟩) Element INT8
      = some (true, Unsupported, VARIABLE) :=
  ⟨by decide,
   get_types_from_matvart_uninterpreted_class ⟨2, [1, 1], MAT_C_OPAQUE, MAT_T_CELL⟩ Element INT8
     (by decide)⟩

/-- C9 (cell precedence): on a non-null record (whose first `rank` dims exist) that passes
the early exit (rank at least 2, class none of object, sparse, function, opaque, data type
none of compressed, function, unknown, and, for a code outside the enumeration, a prior
output value type other than UNSUPPORTED) and whose class is the cell class or whose
data-type code is the cell marker, `get_types_from_matvart` yields CellArray whatever the
dims are. -/
theorem get_types_from_matvart_cell_precedence (input : matvar_t) (k0 : VariableType)
    (v0 : ValueType) (hread : input.dimsReadable) (hrank : 2 ≤ input.rank)
    (hclass : input.class_type ≠ MAT_C_OBJECT ∧ input.class_type ≠ MAT_C_SPARSE ∧
      input.class_type ≠ MAT_C_FUNCTION ∧ input.class_type ≠ MAT_C_OPAQUE)
    (htype : input.data_type ≠ MAT_T_COMPRESSED ∧ input.data_type ≠ MAT_T_FUNCTION ∧
      input.data_type ≠ MAT_T_UNKNOWN)
    (hprior : ∀ code, input.data_type = matio_types.unlisted code → v0 ≠ UNSUPPORTED)
    (hcell : input.class_type = MAT_C_CELL ∨ input.data_type = MAT_T_CELL) :
    get_types_from_matvart (some input) k0 v0
      = some (true, CellArray, switchDataType input.data_type v0) := by
  have hc : isUninterpretedClass input.class_type = false := by
    obtain ⟨h1, h2, h3, h4⟩ := hclass
    cases hct : input.class_type <;> simp_all [isUninterpretedClass]
  have hv : switchDataType input.data_type v0 ≠ UNSUPPORTED := by
    obtain ⟨h1, h2, h3⟩ := htype
    cases hdt : input.data_type <;> simp_all [switchDataType]
  rw [get_types_from_matvart_past_exit input k0 v0 hread hc hv hrank, if_pos hcell]

/-- Witness of C9: a 1 x 1 record of the cell class is a CellArray, not an Element, and a
cell class with the struct marker is a CellArray, not a Struct. -/
theorem get_types_from_matvart_cell_precedence_witness :
    get_types_from_matvart (some ⟨2, [1, 1], MAT_C_CELL, MAT_T_DOUBLE⟩) Element INT8
      = some (true, CellArray, DOUBLE) ∧
    get_types_from_matvart (some ⟨2, [1, 1], MAT_C_CELL, MAT_T_STRUCT⟩) Element INT8
      = some (true, CellArray, VARIABLE) :=
  ⟨get_types_from_matvart_cell_precedence ⟨2, [1, 1], MAT_C_CELL, MAT_T_DOUBLE⟩ Element INT8
     (by decide) (by decide) (by decide) (by decide) (by intro code h; cases h) (by decide),
   get_types_from_matvart_cell_precedence ⟨2, [1, 1], MAT_C_CELL, MAT_T_STRUCT⟩ Element INT8
     (by decide) (by decide) (by decide) (by decide) (by intro code h; cases h) (by decide)⟩

/-- C10 (scalar disambiguation): on a non-null record with rank at least 2, every
dimension equal to 1, and a class that is neither cell nor object, sparse, function or
opaque, `get_types_from_matvart` yields Struct for the struct marker, VariableArray for the
array and matrix markers, and Element for each of the 14 scalar codes. -/
theorem get_types_from_matvart_scalar_disambiguation (input : matvar_t) (k0 : VariableType)
    (v0 : ValueType) (hread : input.dimsReadable) (hrank : 2 ≤ input.rank)
    (hones : ∀ d ∈ input.loopDims, d = 1)
    (hclass : input.class_type ≠ MAT_C_CELL ∧ input.class_type ≠ MAT_C_OBJECT ∧
      input.class_type ≠ MAT_C_SPARSE ∧ input.class_type ≠ MAT_C_FUNCTION ∧
      input.class_type ≠ MAT_C_OPAQUE) :
    (input.data_type = MAT_T_STRUCT →
      get_types_from_matvart (some input) k0 v0 = some (true, Struct, VARIABLE)) ∧
    (input.data_type = MAT_T_ARRAY ∨ input.data_type = MAT_T_MATRIX →
      get_types_from_matvart (some input) k0 v0 = some (true, VariableArray, VARIABLE)) ∧
    (isScalarCode input.data_type = true →
      ∃ v, spec_valueTypeOfCode input.data_type = some v ∧
        get_types_from_matvart (some input) k0 v0 = some (true, Element, v)) := by
  obtain ⟨hcell, h1, h2, h3, h4⟩ := hclass
  have hc : isUninterpretedClass input.class_type = false := by
    cases hct : input.class_type <;> simp_all [isUninterpretedClass]
  have hprod : input.elementCount % SIZE_T_MODULUS = 1 := by
    unfold matvar_t.elementCount
    rw [List.prod_eq_one hones]
    rfl
  refine ⟨?_, ?_, ?_⟩
  · intro hdt
    have hv : switchDataType input.data_type v0 ≠ UNSUPPORTED := by
      rw [hdt]; simp [switchDataType]
    rw [get_types_from_matvart_past_exit input k0 v0 hread hc hv hrank]
    simp [hcell, hdt, hprod, switchDataType]
  · intro hdt
    have hv : switchDataType input.data_type v0 ≠ UNSUPPORTED := by
      rcases hdt with h | h <;> rw [h] <;> simp [switchDataType]
    rw [get_types_from_matvart_past_exit input k0 v0 hread hc hv hrank]
    rcases hdt with h | h <;> simp [hcell, h, hprod, switchDataType]
  · intro hdt
    have hv : switchDataType input.data_type v0 ≠ UNSUPPORTED := by
      cases h : input.data_type <;> simp_all [isScalarCode, switchDataType]
    refine ⟨switchDataType input.data_type v0, ?_, ?_⟩
    · cases h : input.data_type <;> simp_all [isScalarCode, switchDataType, spec_valueTypeOfCode]
    · rw [get_types_from_matvart_past_exit input k0 v0 hread hc hv hrank]
      cases h : input.data_type <;> simp_all [isScalarCode]

/-- Witness of C10: the 1 x 1 records of class DOUBLE with the struct marker, the array
marker and the INT32 code. -/
theorem get_types_from_matvart_scalar_disambiguation_witness :
    get_types_from_matvart (some ⟨2, [1, 1], MAT_C_STRUCT, MAT_T_STRUCT⟩) Element INT8
      = some (true, Struct, VARIABLE) ∧
    get_types_from_matvart (some ⟨2, [1, 1], MAT_C_DOUBLE, MAT_T_ARRAY⟩) Element INT8
      = some (true, VariableArray, VARIABLE) ∧
    ∃ v, spec_valueTypeOfCode MAT_T_INT32 = some v ∧
      get_types_from_matvart (some ⟨2, [1, 1], MAT_C_INT32, MAT_T_INT32⟩) Element INT8
        = some (true, Element, v) :=
  ⟨(get_types_from_matvart_scalar_disambiguation ⟨2, [1, 1], MAT_C_STRUCT, MAT_T_STRUCT⟩
      Element INT8 (by decide) (by decide) (by decide) (by decide)).1 rfl,
   (get_types_from_matvart_scalar_disambiguation ⟨2, [1, 1], MAT_C_DOUBLE, MAT_T_ARRAY⟩
      Element INT8 (by decide) (by decide) (by decide) (by decide)).2.1 (Or.inl rfl),
   (get_types_from_matvart_scalar_disambiguation ⟨2, [1, 1], MAT_C_INT32, MAT_T_INT32⟩
      Element INT8 (by decide) (by decide) (by decide) (by decide)).2.2 rfl⟩

/-! ## Round trip -/

/-- C1, as stated, fails at three inputs. (1) The pair (MultiDimensionalArray, INT8) maps
to (MAT_C_INT8, MAT_T_INT8); a rank-2 record with these codes and dims [1, 5] has a
product of 5 > 1, yet is classified Vector. (2) The pair (Struct, INT8) is accepted and
maps to (MAT_C_STRUCT, MAT_T_STRUCT); a 1 x 1 record with these codes is classified
(Struct, VARIABLE), not (Struct, INT8). (3) A rank-2 record with the INT8 codes and dims
[3, 12297829382473034411] has a product of 2^65 + 1 > 1, which wraps to 1 in `size_t`, and
is classified Element, not MultiDimensionalArray. -/
theorem round_trip_counterexample :
    (get_matio_types MultiDimensionalArray INT8 MAT_C_CELL MAT_T_CELL
        = (true, MAT_C_INT8, MAT_T_INT8) ∧
      matvar_t.elementCount ⟨2, [1, 5], MAT_C_INT8, MAT_T_INT8⟩ = 5 ∧
      get_types_from_matvart (some ⟨2, [1, 5], MAT_C_INT8, MAT_T_INT8⟩) Unsupported UNSUPPORTED
        = some (true, Vector, INT8)) ∧
    (get_matio_types Struct INT8 MAT_C_CELL MAT_T_CELL = (true, MAT_C_STRUCT, MAT_T_STRUCT) ∧
      matvar_t.elementCount ⟨2, [1, 1], MAT_C_STRUCT, MAT_T_STRUCT⟩ = 1 ∧
      get_types_from_matvart (some ⟨2, [1, 1], MAT_C_STRUCT, MAT_T_STRUCT⟩)
          Unsupported UNSUPPORTED
        = some (true, Struct, VARIABLE)) ∧
    (matvar_t.elementCount ⟨2, [3, 12297829382473034411], MAT_C_INT8, MAT_T_INT8⟩
        = 2 ^ 65 + 1 ∧
      get_types_from_matvart (some ⟨2, [3, 12297829382473034411], MAT_C_INT8, MAT_T_INT8⟩)
          Unsupported UNSUPPORTED
        = some (true, Element, INT8)) := by
  refine ⟨⟨rfl, by decide, by decide⟩, ⟨rfl, by decide, by decide⟩, ⟨by decide, by decide⟩⟩

/-- C1, amended: for every (kind, valueType) pair on which `get_matio_types` succeeds,
the value type being VARIABLE when the kind is Struct, VariableArray or CellArray, and
every non-null record that carries the returned codes, with rank at least 2, its first
`rank` dims present, an element count that fits `size_t`, and dims of the shape of the
kind (`shapeOfKind`), `get_types_from_matvart` returns exactly (kind, valueType). -/
theorem round_trip_amended (k : VariableType) (v : ValueType) (c0 c : matio_classes)
    (t0 t : matio_types) (input : matvar_t) (k0 : VariableType) (v0 : ValueType)
    (hmap : get_matio_types k v c0 t0 = (true, c, t))
    (hvar : k = Struct ∨ k = VariableArray ∨ k = CellArray → v = VARIABLE)
    (hclass : input.class_type = c) (htype : input.data_type = t)
    (hrank : 2 ≤ input.rank) (hread : input.dimsReadable)
    (hfit : input.elementCount < SIZE_T_MODULUS)
    (hshape : shapeOfKind k input) :
    get_types_from_matvart (some input) k0 v0 = some (true, k, v) := by
  have key : ∀ (_ : isUninterpretedClass input.class_type = false)
      (_ : switchDataType input.data_type v0 ≠ UNSUPPORTED),
      get_types_from_matvart (some input) k0 v0 = _ :=
    fun hc hv => get_types_from_matvart_past_exit input k0 v0 hread hc hv hrank
  rw [Nat.mod_eq_of_lt hfit] at key
  by_cases hone : input.elementCount = 1
  · cases k <;> cases v <;>
      simp [get_matio_types] at hmap hvar <;>
      obtain ⟨hc, ht⟩ := hmap <;>
      subst hc <;> subst ht <;>
      rw [key (by rw [hclass]; rfl) (by rw [htype]; simp [switchDataType])] <;>
      simp [shapeOfKind, hone] at hshape <;>
      simp [hclass, htype, hone, switchDataType]
  · cases k <;> cases v <;>
      simp [get_matio_types] at hmap hvar <;>
      obtain ⟨hc, ht⟩ := hmap <;>
      subst hc <;> subst ht <;>
      rw [key (by rw [hclass]; rfl) (by rw [htype]; simp [switchDataType])] <;>
      simp [shapeOfKind, matvar_t.hasUnitAxis, hone] at hshape <;>
      simp [hclass, htype, hone, hshape, switchDataType] <;>
      exact hshape.2

/-- Witness of the amended C1: (Vector, DOUBLE) through a 1 x 5 record,
(MultiDimensionalArray, INT8) through a 3 x 4 record, (Struct, VARIABLE) through a 1 x 1
record and (VariableArray, VARIABLE) through a 2 x 2 record. -/
theorem round_trip_amended_witness :
    get_types_from_matvart (some ⟨2, [1, 5], MAT_C_DOUBLE, MAT_T_DOUBLE⟩) Unsupported UNSUPPORTED
      = some (true, Vector, DOUBLE) ∧
    get_types_from_matvart (some ⟨2, [3, 4], MAT_C_INT8, MAT_T_INT8⟩) Unsupported UNSUPPORTED
      = some (true, MultiDimensionalArray, INT8) ∧
    get_types_from_matvart (some ⟨2, [1, 1], MAT_C_STRUCT, MAT_T_STRUCT⟩) Unsupported UNSUPPORTED
      = some (true, Struct, VARIABLE) ∧
    get_types_from_matvart (some ⟨2, [2, 2], MAT_C_STRUCT, MAT_T_STRUCT⟩) Unsupported UNSUPPORTED
      = some (true, VariableArray, VARIABLE) :=
  ⟨round_trip_amended Vector DOUBLE MAT_C_CELL MAT_C_DOUBLE MAT_T_CELL MAT_T_DOUBLE
     ⟨2, [1, 5], MAT_C_DOUBLE, MAT_T_DOUBLE⟩ Unsupported UNSUPPORTED
     rfl (by decide) rfl rfl (by decide) (by decide) (by decide) (by decide),
   round_trip_amended MultiDimensionalArray INT8 MAT_C_CELL MAT_C_INT8 MAT_T_CELL MAT_T_INT8
     ⟨2, [3, 4], MAT_C_INT8, MAT_T_INT8⟩ Unsupported UNSUPPORTED
     rfl (by decide) rfl rfl (by decide) (by decide) (by decide) (by decide),
   round_trip_amended Struct VARIABLE MAT_C_CELL MAT_C_STRUCT MAT_T_CELL MAT_T_STRUCT
     ⟨2, [1, 1], MAT_C_STRUCT, MAT_T_STRUCT⟩ Unsupported UNSUPPORTED
     rfl (by decide) rfl rfl (by decide) (by decide) (by decide) (by decide),
   round_trip_amended VariableArray VARIABLE MAT_C_CELL MAT_C_STRUCT MAT_T_CELL MAT_T_STRUCT
     ⟨2, [2, 2], MAT_C_STRUCT, MAT_T_STRUCT⟩ Unsupported UNSUPPORTED
     rfl (by decide) rfl rfl (by decide) (by decide) (by decide) (by decide)⟩

/-! ## The verdict on a readable record -/

theorem get_types_from_matvart_verdict (input : matvar_t) (k0 : VariableType) (v0 : ValueType)
    (hread : input.dimsReadable) :
    get_types_from_matvart (some input) k0 v0
      = some (true,
          (if isUninterpretedClass input.class_type = true ∨
               switchDataType input.data_type v0 = UNSUPPORTED ∨ input.rank < 2 then Unsupported
           else if input.class_type = MAT_C_CELL ∨ input.data_type = MAT_T_CELL then CellArray
           else if input.elementCount % SIZE_T_MODULUS = 1 then
             (if input.data_type = MAT_T_STRUCT then Struct
              else if input.data_type = MAT_T_ARRAY ∨ input.data_type = MAT_T_MATRIX then
                VariableArray
              else Element)
           else if input.data_type = MAT_T_STRUCT ∨ input.data_type = MAT_T_ARRAY ∨
               input.data_type = MAT_T_MATRIX then VariableArray
           else if input.hasUnitAxis then Vector
           else MultiDimensionalArray),
          switchDataType input.data_type v0) := by
  by_cases h : isUninterpretedClass input.class_type = true ∨
      switchDataType input.data_type v0 = UNSUPPORTED ∨ input.rank < 2
  · rw [get_types_from_matvart_early_exit input k0 v0 h, if_pos h]
  · have hclass : isUninterpretedClass input.class_type = false := by
      cases hb : isUninterpretedClass input.class_type
      · rfl
      · exact absurd (Or.inl hb) h
    have hv : switchDataType input.data_type v0 ≠ UNSUPPORTED :=
      fun hv => h (Or.inr (Or.inl hv))
    have hrank : 2 ≤ input.rank := by
      by_contra hlt
      exact h (Or.inr (Or.inr (by omega)))
    rw [get_types_from_matvart_past_exit input k0 v0 hread hclass hv hrank, if_neg h]
    rfl

theorem isUninterpretedClass_eq_false (c : matio_classes)
    (h : c ≠ MAT_C_OBJECT ∧ c ≠ MAT_C_SPARSE ∧ c ≠ MAT_C_FUNCTION ∧ c ≠ MAT_C_OPAQUE) :
    isUninterpretedClass c = false := by
  obtain ⟨h1, h2, h3, h4⟩ := h
  cases c <;> simp_all [isUninterpretedClass]

theorem switchDataType_of_scalar (t : matio_types) (v0 : ValueType)
    (h : isScalarCode t = true) :
    spec_valueTypeOfCode t = some (switchDataType t v0) ∧
      isScalarValueType (switchDataType t v0) = true ∧
      t ≠ MAT_T_CELL ∧ t ≠ MAT_T_STRUCT ∧ t ≠ MAT_T_ARRAY ∧ t ≠ MAT_T_MATRIX := by
  cases t <;> simp_all [isScalarCode, switchDataType, spec_valueTypeOfCode, isScalarValueType]

/-- C11 (vector detection): on a non-null record with rank at least 2, a dims product
above 1 that does not overflow, a class that is neither cell nor object, sparse, function
or opaque, and one of the 14 scalar data-type codes, `get_types_from_matvart` yields Vector
if and only if the rank is 2 and `dims[0]` or `dims[1]` is 1, and MultiDimensionalArray
otherwise. -/
theorem get_types_from_matvart_vector_detection (input : matvar_t) (k0 : VariableType)
    (v0 : ValueType) (hread : input.dimsReadable) (hrank : 2 ≤ input.rank)
    (hprod : 1 < input.elementCount) (hfit : input.elementCount < SIZE_T_MODULUS)
    (hclass : input.class_type ≠ MAT_C_CELL ∧ input.class_type ≠ MAT_C_OBJECT ∧
      input.class_type ≠ MAT_C_SPARSE ∧ input.class_type ≠ MAT_C_FUNCTION ∧
      input.class_type ≠ MAT_C_OPAQUE)
    (hscalar : isScalarCode input.data_type = true) :
    ∃ k v, get_types_from_matvart (some input) k0 v0 = some (true, k, v) ∧
      spec_valueTypeOfCode input.data_type = some v ∧
      (k = Vector ↔
        (input.rank = 2 ∧ (input.dims[0]? = some 1 ∨ input.dims[1]? = some 1))) ∧
      (k = MultiDimensionalArray ↔
        ¬ (input.rank = 2 ∧ (input.dims[0]? = some 1 ∨ input.dims[1]? = some 1))) := by
  obtain ⟨hcell, hcls⟩ := hclass
  have hc := isUninterpretedClass_eq_false input.class_type hcls
  obtain ⟨htab, hsv, h1, h2, h3, h4⟩ := switchDataType_of_scalar input.data_type v0 hscalar
  have hv : switchDataType input.data_type v0 ≠ UNSUPPORTED := by
    intro h; rw [h] at hsv; exact absurd hsv (by decide)
  have hne : ¬ input.elementCount % SIZE_T_MODULUS = 1 := by
    rw [Nat.mod_eq_of_lt hfit]; omega
  have hexit : ¬ (isUninterpretedClass input.class_type = true ∨
      switchDataType input.data_type v0 = UNSUPPORTED ∨ input.rank < 2) := by
    rintro (h | h | h)
    · rw [hc] at h; exact absurd h (by decide)
    · exact hv h
    · omega
  refine ⟨_, _, get_types_from_matvart_verdict input k0 v0 hread, htab, ?_, ?_⟩
  · rw [if_neg hexit, if_neg (by tauto), if_neg hne, if_neg (by tauto)]
    unfold matvar_t.hasUnitAxis
    split_ifs with hu <;> simp [hu]
  · rw [if_neg hexit, if_neg (by tauto), if_neg hne, if_neg (by tauto)]
    unfold matvar_t.hasUnitAxis
    split_ifs with hu <;> simp [hu]

/-- Witness of C11: dims [1, 5] and [5, 1] give Vector, [3, 4] and the rank-3 [1, 1, 5]
give MultiDimensionalArray. -/
theorem get_types_from_matvart_vector_detection_witness :
    (∃ k v, get_types_from_matvart (some ⟨2, [1, 5], MAT_C_DOUBLE, MAT_T_DOUBLE⟩) Element INT8
        = some (true, k, v) ∧ spec_valueTypeOfCode MAT_T_DOUBLE = some v ∧
      (k = Vector ↔ ((2 : Int) = 2 ∧ ([1, 5][0]? = some 1 ∨ [1, 5][1]? = some 1))) ∧
      (k = MultiDimensionalArray ↔
        ¬ ((2 : Int) = 2 ∧ ([1, 5][0]? = some 1 ∨ [1, 5][1]? = some 1)))) ∧
    (∃ k v, get_types_from_matvart (some ⟨3, [1, 1, 5], MAT_C_DOUBLE, MAT_T_DOUBLE⟩) Element INT8
        = some (true, k, v) ∧ spec_valueTypeOfCode MAT_T_DOUBLE = some v ∧
      (k = Vector ↔ ((3 : Int) = 2 ∧ ([1, 1, 5][0]? = some 1 ∨ [1, 1, 5][1]? = some 1))) ∧
      (k = MultiDimensionalArray ↔
        ¬ ((3 : Int) = 2 ∧ ([1, 1, 5][0]? = some 1 ∨ [1, 1, 5][1]? = some 1)))) ∧
    get_types_from_matvart (some ⟨2, [5, 1], MAT_C_DOUBLE, MAT_T_DOUBLE⟩) Element INT8
      = some (true, Vector, DOUBLE) ∧
    get_types_from_matvart (some ⟨2, [3, 4], MAT_C_DOUBLE, MAT_T_DOUBLE⟩) Element INT8
      = some (true, MultiDimensionalArray, DOUBLE) ∧
    get_types_from_matvart (some ⟨3, [1, 1, 5], MAT_C_DOUBLE, MAT_T_DOUBLE⟩) Element INT8
      = some (true, MultiDimensionalArray, DOUBLE) :=
  ⟨get_types_from_matvart_vector_detection ⟨2, [1, 5], MAT_C_DOUBLE, MAT_T_DOUBLE⟩ Element INT8
     (by decide) (by decide) (by decide) (by decide) (by decide) (by decide),
   get_types_from_matvart_vector_detection ⟨3, [1, 1, 5], MAT_C_DOUBLE, MAT_T_DOUBLE⟩
     Element INT8 (by decide) (by decide) (by decide) (by decide) (by decide) (by decide),
   by decide, by decide, by decide⟩

/-- C12, as stated, fails when the product wraps: a rank-2 record of the struct class
with the struct marker and dims [3, 12297829382473034411] has a dims product of
2^65 + 1 > 1, the `size_t` product of the loop is 1, and the record is classified
(Struct, VARIABLE), not (VariableArray, VARIABLE). -/
theorem get_types_from_matvart_marker_counterexample :
    matvar_t.elementCount ⟨2, [3, 12297829382473034411], MAT_C_STRUCT, MAT_T_STRUCT⟩
      = 2 ^ 65 + 1 ∧
    dimensionsProductLoop [3, 12297829382473034411] 2 0 1 = some 1 ∧
    get_types_from_matvart (some ⟨2, [3, 12297829382473034411], MAT_C_STRUCT, MAT_T_STRUCT⟩)
        Unsupported UNSUPPORTED
      = some (true, Struct, VARIABLE) := by
  refine ⟨by decide, by decide, by decide⟩

/-- C12, amended: on a non-null record with rank at least 2, a dims product above 1 that
is not congruent to 1 modulo 2^64, a class that is neither cell nor object, sparse,
function or opaque, and a struct, array or matrix data-type marker,
`get_types_from_matvart` yields (VariableArray, VARIABLE), whatever the shape of dims: the
marker is tested before the vector shape. -/
theorem get_types_from_matvart_marker_before_shape (input : matvar_t) (k0 : VariableType)
    (v0 : ValueType) (hread : input.dimsReadable) (hrank : 2 ≤ input.rank)
    (_hprod : 1 < input.elementCount) (hwrap : input.elementCount % SIZE_T_MODULUS ≠ 1)
    (hclass : input.class_type ≠ MAT_C_CELL ∧ input.class_type ≠ MAT_C_OBJECT ∧
      input.class_type ≠ MAT_C_SPARSE ∧ input.class_type ≠ MAT_C_FUNCTION ∧
      input.class_type ≠ MAT_C_OPAQUE)
    (hmarker : input.data_type = MAT_T_STRUCT ∨ input.data_type = MAT_T_ARRAY ∨
      input.data_type = MAT_T_MATRIX) :
    get_types_from_matvart (some input) k0 v0 = some (true, VariableArray, VARIABLE) := by
  obtain ⟨hcell, hcls⟩ := hclass
  have hc := isUninterpretedClass_eq_false input.class_type hcls
  have hsw : switchDataType input.data_type v0 = VARIABLE := by
    rcases hmarker with h | h | h <;> rw [h] <;> rfl
  have hnc : ¬ (input.class_type = MAT_C_CELL ∨ input.data_type = MAT_T_CELL) := by
    rintro (h | h)
    · exact hcell h
    · rcases hmarker with h2 | h2 | h2 <;> rw [h2] at h <;> exact absurd h (by decide)
  have hexit : ¬ (isUninterpretedClass input.class_type = true ∨
      switchDataType input.data_type v0 = UNSUPPORTED ∨ input.rank < 2) := by
    rintro (h | h | h)
    · rw [hc] at h; exact absurd h (by decide)
    · rw [hsw] at h; exact absurd h (by decide)
    · omega
  rw [get_types_from_matvart_verdict input k0 v0 hread, if_neg hexit, if_neg hnc,
    if_neg hwrap, if_pos hmarker, hsw]

/-- Witness of the amended C12: vector-shaped records (1 x 5) with the struct marker and
with the matrix marker are VariableArray, not Vector. -/
theorem get_types_from_matvart_marker_before_shape_witness :
    get_types_from_matvart (some ⟨2, [1, 5], MAT_C_STRUCT, MAT_T_STRUCT⟩) Element INT8
      = some (true, VariableArray, VARIABLE) ∧
    get_types_from_matvart (some ⟨2, [1, 5], MAT_C_DOUBLE, MAT_T_MATRIX⟩) Element INT8
      = some (true, VariableArray, VARIABLE) :=
  ⟨get_types_from_matvart_marker_before_shape ⟨2, [1, 5], MAT_C_STRUCT, MAT_T_STRUCT⟩
     Element INT8 (by decide) (by decide) (by decide) (by decide) (by decide) (by decide),
   get_types_from_matvart_marker_before_shape ⟨2, [1, 5], MAT_C_DOUBLE, MAT_T_MATRIX⟩
     Element INT8 (by decide) (by decide) (by decide) (by decide) (by decide) (by decide)⟩

/-- C13 fails on the code: the `switch` has no `default`, so a data-type code outside the
enumeration (here 99) leaves `outputValueType` at the value it held before the call. A
1 x 1 record of class DOUBLE with that code is classified (Element, DOUBLE) when the output
held DOUBLE, and (Vector, INT8) for dims [1, 5] when it held INT8; the kind is Unsupported
only when the output already held UNSUPPORTED. -/
theorem get_types_from_matvart_unlisted_code_keeps_prior :
    get_types_from_matvart (some ⟨2, [1, 1], MAT_C_DOUBLE, matio_types.unlisted 99⟩)
        Unsupported DOUBLE
      = some (true, Element, DOUBLE) ∧
    get_types_from_matvart (some ⟨2, [1, 5], MAT_C_DOUBLE, matio_types.unlisted 99⟩)
        Unsupported INT8
      = some (true, Vector, INT8) ∧
    get_types_from_matvart (some ⟨2, [1, 1], MAT_C_DOUBLE, matio_types.unlisted 99⟩)
        Element UNSUPPORTED
      = some (true, Unsupported, UNSUPPORTED) := by
  refine ⟨by decide, by decide, by decide⟩

/-! ## The disambiguation key -/

theorem list_prod_eq_one (l : List Nat) (h : l.prod = 1) : ∀ d ∈ l, d = 1 := by
  induction l with
  | nil => intro d hd; cases hd
  | cons a l ih =>
    rw [List.prod_cons] at h
    have ha : a = 1 := Nat.eq_one_of_mul_eq_one_right h
    have hl : l.prod = 1 := Nat.eq_one_of_mul_eq_one_left h
    intro d hd
    rcases List.mem_cons.mp hd with rfl | hd
    · exact ha
    · exact ih hl d hd

/-- C14, as stated, fails: for the rank-2 record with dims [3, 12297829382473034411] the
exact product is 2^65 + 1, the key the loop computes is 1, and the verdict is Element
although no dimension equals 1. -/
theorem dimensionsProduct_counterexample :
    matvar_t.elementCount ⟨2, [3, 12297829382473034411], MAT_C_DOUBLE, MAT_T_DOUBLE⟩
      = 2 ^ 65 + 1 ∧
    dimensionsProductLoop [3, 12297829382473034411] 2 0 1 = some 1 ∧
    get_types_from_matvart (some ⟨2, [3, 12297829382473034411], MAT_C_DOUBLE, MAT_T_DOUBLE⟩)
        Unsupported UNSUPPORTED
      = some (true, Element, DOUBLE) ∧
    ¬ (∀ d ∈ matvar_t.loopDims ⟨2, [3, 12297829382473034411], MAT_C_DOUBLE, MAT_T_DOUBLE⟩,
        d = 1) := by
  refine ⟨by decide, by decide, by decide, by decide⟩

/-- C14, amended: for every record with rank at least 2 (whose first `rank` dims exist)
the key the loop computes is the product of `dims[0..rank-1]` reduced modulo 2^64, hence
the exact product whenever that is below 2^64; the call succeeds, and a verdict of Element
or Struct is returned only when the product is congruent to 1 modulo 2^64, so, when the
product does not overflow, only when every dimension equals 1. -/
theorem dimensionsProduct_modular (input : matvar_t) (k0 : VariableType) (v0 : ValueType)
    (hread : input.dimsReadable) (_hrank : 2 ≤ input.rank) :
    dimensionsProductLoop input.dims input.rank.toNat 0 1
        = some (input.elementCount % SIZE_T_MODULUS) ∧
    (input.elementCount < SIZE_T_MODULUS →
      dimensionsProductLoop input.dims input.rank.toNat 0 1 = some input.elementCount) ∧
    ∃ k v, get_types_from_matvart (some input) k0 v0 = some (true, k, v) ∧
      (k = Element ∨ k = Struct → input.elementCount % SIZE_T_MODULUS = 1) ∧
      (k = Element ∨ k = Struct → input.elementCount < SIZE_T_MODULUS →
        ∀ d ∈ input.loopDims, d = 1) := by
  have hloop := dimensionsProductLoop_readable input hread
  have hkey : ∀ k, k = (if isUninterpretedClass input.class_type = true ∨
               switchDataType input.data_type v0 = UNSUPPORTED ∨ input.rank < 2 then Unsupported
           else if input.class_type = MAT_C_CELL ∨ input.data_type = MAT_T_CELL then CellArray
           else if input.elementCount % SIZE_T_MODULUS = 1 then
             (if input.data_type = MAT_T_STRUCT then Struct
              else if input.data_type = MAT_T_ARRAY ∨ input.data_type = MAT_T_MATRIX then
                VariableArray
              else Element)
           else if input.data_type = MAT_T_STRUCT ∨ input.data_type = MAT_T_ARRAY ∨
               input.data_type = MAT_T_MATRIX then VariableArray
           else if input.hasUnitAxis then Vector
           else MultiDimensionalArray) →
      (k = Element ∨ k = Struct) → input.elementCount % SIZE_T_MODULUS = 1 := by
    intro k hk hes
    by_contra hne
    rw [if_neg hne] at hk
    split_ifs at hk <;> subst hk <;> rcases hes with h | h <;> cases h
  refine ⟨hloop, ?_, _, _, get_types_from_matvart_verdict input k0 v0 hread, ?_, ?_⟩
  · intro hfit
    rw [hloop, Nat.mod_eq_of_lt hfit]
  · exact hkey _ rfl
  · intro hes hfit
    have h1 := hkey _ rfl hes
    rw [Nat.mod_eq_of_lt hfit] at h1
    exact list_prod_eq_one input.loopDims h1

/-- Witness of the amended C14: for the 3 x 4 record the key is 12, and the 1 x 1 record
is classified Element with every dimension equal to 1. -/
theorem dimensionsProduct_modular_witness :
    dimensionsProductLoop [3, 4] 2 0 1 = some 12 ∧
    ∃ k v, get_types_from_matvart (some ⟨2, [1, 1], MAT_C_DOUBLE, MAT_T_DOUBLE⟩) Element INT8
        = some (true, k, v) ∧
      (k = Element ∨ k = Struct →
        matvar_t.elementCount ⟨2, [1, 1], MAT_C_DOUBLE, MAT_T_DOUBLE⟩ % SIZE_T_MODULUS = 1) ∧
      (k = Element ∨ k = Struct →
        matvar_t.elementCount ⟨2, [1, 1], MAT_C_DOUBLE, MAT_T_DOUBLE⟩ < SIZE_T_MODULUS →
        ∀ d ∈ matvar_t.loopDims ⟨2, [1, 1], MAT_C_DOUBLE, MAT_T_DOUBLE⟩, d = 1) :=
  ⟨(dimensionsProduct_modular ⟨2, [3, 4], MAT_C_DOUBLE, MAT_T_DOUBLE⟩ Element INT8
      (by decide) (by decide)).2.1 (by decide),
   (dimensionsProduct_modular ⟨2, [1, 1], MAT_C_DOUBLE, MAT_T_DOUBLE⟩ Element INT8
      (by decide) (by decide)).2.2⟩

/-! ## Consistency of the two mappings -/

/-- C15 (scalar-kind round trip for any shape): for every kind among Element, Vector and
MultiDimensionalArray, every one of the 14 scalar value types `v`, and every non-null
record with rank at least 2 and arbitrary dims that carries the codes `get_matio_types`
returns for (kind, v), `get_types_from_matvart` succeeds with value type `v` and a kind
among Element, Vector and MultiDimensionalArray. -/
theorem scalar_round_trip_any_shape (k : VariableType) (v : ValueType) (c0 : matio_classes)
    (t0 : matio_types) (input : matvar_t) (k0 : VariableType) (v0 : ValueType)
    (hk : k = Element ∨ k = Vector ∨ k = MultiDimensionalArray)
    (hv : isScalarValueType v = true)
    (hcodes : get_matio_types k v c0 t0 = (true, input.class_type, input.data_type))
    (hrank : 2 ≤ input.rank) (hread : input.dimsReadable) :
    ∃ k1, get_types_from_matvart (some input) k0 v0 = some (true, k1, v) ∧
      (k1 = Element ∨ k1 = Vector ∨ k1 = MultiDimensionalArray) := by
  have hfacts : switchDataType input.data_type v0 = v ∧
      isUninterpretedClass input.class_type = false ∧ input.class_type ≠ MAT_C_CELL ∧
      isScalarCode input.data_type = true := by
    rcases hk with rfl | rfl | rfl <;> cases v <;>
      simp [get_matio_types, isScalarValueType] at hcodes hv <;>
      obtain ⟨hc, ht⟩ := hcodes <;>
      rw [← hc, ← ht] <;>
      exact ⟨rfl, rfl, by simp, rfl⟩
  obtain ⟨hsw, hc, hcell, hscalar⟩ := hfacts
  obtain ⟨-, hsv, h1, h2, h3, h4⟩ := switchDataType_of_scalar input.data_type v0 hscalar
  have hexit : ¬ (isUninterpretedClass input.class_type = true ∨
      switchDataType input.data_type v0 = UNSUPPORTED ∨ input.rank < 2) := by
    rintro (h | h | h)
    · rw [hc] at h; exact absurd h (by decide)
    · rw [h] at hsv; exact absurd hsv (by decide)
    · omega
  have hverdict := get_types_from_matvart_verdict input k0 v0 hread
  rw [if_neg hexit, if_neg (by tauto), hsw] at hverdict
  refine ⟨_, hverdict, ?_⟩
  split_ifs <;> simp_all

/-- Witness of C15: the codes of (MultiDimensionalArray, UINT16) on a 1 x 1 record come
back with value type UINT16 and a scalar kind. -/
theorem scalar_round_trip_any_shape_witness :
    ∃ k1, get_types_from_matvart (some ⟨2, [1, 1], MAT_C_UINT16, MAT_T_UINT16⟩) Unsupported
        UNSUPPORTED = some (true, k1, UINT16) ∧
      (k1 = Element ∨ k1 = Vector ∨ k1 = MultiDimensionalArray) :=
  scalar_round_trip_any_shape MultiDimensionalArray UINT16 MAT_C_CELL MAT_T_CELL
    ⟨2, [1, 1], MAT_C_UINT16, MAT_T_UINT16⟩ Unsupported UNSUPPORTED
    (by decide) (by decide) rfl (by decide) (by decide)

theorem get_types_from_matvart_kind_facts (input : matvar_t) (k0 : VariableType)
    (v0 : ValueType) (hread : input.dimsReadable) :
    ∃ k, get_types_from_matvart (some input) k0 v0
        = some (true, k, switchDataType input.data_type v0) ∧
      (switchDataType input.data_type v0 = UNSUPPORTED → k = Unsupported) ∧
      (k = Struct → input.data_type = MAT_T_STRUCT) ∧
      (k = VariableArray →
        input.data_type = MAT_T_STRUCT ∨ input.data_type = MAT_T_ARRAY ∨
          input.data_type = MAT_T_MATRIX) ∧
      (k = Element ∨ k = Vector ∨ k = MultiDimensionalArray →
        switchDataType input.data_type v0 ≠ UNSUPPORTED ∧ input.data_type ≠ MAT_T_CELL ∧
          input.data_type ≠ MAT_T_STRUCT ∧ input.data_type ≠ MAT_T_ARRAY ∧
          input.data_type ≠ MAT_T_MATRIX) ∧
      (k = Element ∨ k = Struct → input.elementCount % SIZE_T_MODULUS = 1) := by
  refine ⟨_, get_types_from_matvart_verdict input k0 v0 hread, ?_, ?_, ?_, ?_, ?_⟩
  · intro h
    rw [if_pos (Or.inr (Or.inl h))]
  · split_ifs <;> simp_all
  · split_ifs <;> simp_all
  · split_ifs <;> simp_all
  · split_ifs <;> simp_all

theorem isScalarCode_of_listed (t : matio_types) (v0 : ValueType)
    (hlisted : (spec_valueTypeOfCode t).isSome = true)
    (h : switchDataType t v0 ≠ UNSUPPORTED ∧ t ≠ MAT_T_CELL ∧ t ≠ MAT_T_STRUCT ∧
      t ≠ MAT_T_ARRAY ∧ t ≠ MAT_T_MATRIX) :
    isScalarCode t = true := by
  cases t <;> simp_all [isScalarCode, switchDataType, spec_valueTypeOfCode]

theorem get_matio_types_of_scalar_code (k : VariableType) (t : matio_types) (v0 : ValueType)
    (c0 : matio_classes) (t0 : matio_types)
    (hk : k = Element ∨ k = Vector ∨ k = MultiDimensionalArray)
    (h : isScalarCode t = true) :
    ∃ c, get_matio_types k (switchDataType t v0) c0 t0 = (true, c, t) := by
  rcases hk with rfl | rfl | rfl <;> cases t <;>
    simp_all [isScalarCode, switchDataType, get_matio_types]

theorem switchDataType_of_marker (t : matio_types) (v0 : ValueType)
    (h : t = MAT_T_STRUCT ∨ t = MAT_T_ARRAY ∨ t = MAT_T_MATRIX) :
    switchDataType t v0 = VARIABLE := by
  rcases h with rfl | rfl | rfl <;> rfl

/-- C16 (reverse round trip): on a non-null record with a listed data-type code (whose
first `rank` dims exist) `get_types_from_matvart` succeeds, and when the kind it returns
is not Unsupported, `get_matio_types` succeeds on the returned (kind, value type); when
that kind is Element, Vector or MultiDimensionalArray the data-type code it returns is the
data-type code of the record. -/
theorem reverse_round_trip (input : matvar_t) (k0 : VariableType) (v0 : ValueType)
    (c0 : matio_classes) (t0 : matio_types) (hread : input.dimsReadable)
    (hlisted : (spec_valueTypeOfCode input.data_type).isSome = true) :
    ∃ k v, get_types_from_matvart (some input) k0 v0 = some (true, k, v) ∧
      (k ≠ Unsupported →
        ∃ c t, get_matio_types k v c0 t0 = (true, c, t) ∧
          (k = Element ∨ k = Vector ∨ k = MultiDimensionalArray → t = input.data_type)) := by
  obtain ⟨k, hk, -, -, -, hscalar, -⟩ := get_types_from_matvart_kind_facts input k0 v0 hread
  refine ⟨k, _, hk, ?_⟩
  intro hne
  cases k with
  | Unsupported => exact absurd rfl hne
  | Struct => exact ⟨_, _, rfl, by simp⟩
  | VariableArray => exact ⟨_, _, rfl, by simp⟩
  | CellArray => exact ⟨_, _, rfl, by simp⟩
  | Element =>
    have hs := isScalarCode_of_listed input.data_type v0 hlisted (hscalar (by simp))
    obtain ⟨c, hc⟩ := get_matio_types_of_scalar_code Element input.data_type v0 c0 t0
      (by simp) hs
    exact ⟨c, _, hc, fun _ => rfl⟩
  | Vector =>
    have hs := isScalarCode_of_listed input.data_type v0 hlisted (hscalar (by simp))
    obtain ⟨c, hc⟩ := get_matio_types_of_scalar_code Vector input.data_type v0 c0 t0
      (by simp) hs
    exact ⟨c, _, hc, fun _ => rfl⟩
  | MultiDimensionalArray =>
    have hs := isScalarCode_of_listed input.data_type v0 hlisted (hscalar (by simp))
    obtain ⟨c, hc⟩ := get_matio_types_of_scalar_code MultiDimensionalArray input.data_type
      v0 c0 t0 (by simp) hs
    exact ⟨c, _, hc, fun _ => rfl⟩

/-- Witness of C16: a 3 x 4 record of class DOUBLE with the INT16 code is classified
(MultiDimensionalArray, INT16), on which the forward mapper returns the INT16 code. -/
theorem reverse_round_trip_witness :
    ∃ k v, get_types_from_matvart (some ⟨2, [3, 4], MAT_C_DOUBLE, MAT_T_INT16⟩) Element INT8
        = some (true, k, v) ∧
      (k ≠ Unsupported →
        ∃ c t, get_matio_types k v MAT_C_CELL MAT_T_CELL = (true, c, t) ∧
          (k = Element ∨ k = Vector ∨ k = MultiDimensionalArray → t = MAT_T_INT16)) :=
  reverse_round_trip ⟨2, [3, 4], MAT_C_DOUBLE, MAT_T_INT16⟩ Element INT8 MAT_C_CELL MAT_T_CELL
    (by decide) (by decide)

/-- C17 (kind and value type agree): on a non-null record with a listed data-type code
(whose first `rank` dims exist) `get_types_from_matvart` succeeds with a verdict in which
the kinds Struct and VariableArray carry VARIABLE, the kinds Element, Vector and
MultiDimensionalArray carry one of the 14 scalar value types, and the value type
UNSUPPORTED comes with the kind Unsupported. -/
theorem verdict_consistency (input : matvar_t) (k0 : VariableType) (v0 : ValueType)
    (hread : input.dimsReadable)
    (hlisted : (spec_valueTypeOfCode input.data_type).isSome = true) :
    ∃ k v, get_types_from_matvart (some input) k0 v0 = some (true, k, v) ∧
      (k = Struct ∨ k = VariableArray → v = VARIABLE) ∧
      (k = Element ∨ k = Vector ∨ k = MultiDimensionalArray → isScalarValueType v = true) ∧
      (v = UNSUPPORTED → k = Unsupported) := by
  obtain ⟨k, hk, hun, hst, hva, hscalar, -⟩ :=
    get_types_from_matvart_kind_facts input k0 v0 hread
  refine ⟨k, _, hk, ?_, ?_, hun⟩
  · rintro (h | h)
    · exact switchDataType_of_marker input.data_type v0 (Or.inl (hst h))
    · exact switchDataType_of_marker input.data_type v0 (hva h)
  · intro h
    have hs := isScalarCode_of_listed input.data_type v0 hlisted (hscalar h)
    exact (switchDataType_of_scalar input.data_type v0 hs).2.1

/-- Witness of C17: a 2 x 2 record with the struct marker is (VariableArray, VARIABLE). -/
theorem verdict_consistency_witness :
    ∃ k v, get_types_from_matvart (some ⟨2, [2, 2], MAT_C_STRUCT, MAT_T_STRUCT⟩) Element INT8
        = some (true, k, v) ∧
      (k = Struct ∨ k = VariableArray → v = VARIABLE) ∧
      (k = Element ∨ k = Vector ∨ k = MultiDimensionalArray → isScalarValueType v = true) ∧
      (v = UNSUPPORTED → k = Unsupported) :=
  verdict_consistency ⟨2, [2, 2], MAT_C_STRUCT, MAT_T_STRUCT⟩ Element INT8
    (by decide) (by decide)

theorem get_types_from_matvart_rank_lt_two (input : matvar_t) (k0 : VariableType)
    (v0 : ValueType) (hrank : input.rank < 2) :
    get_types_from_matvart (some input) k0 v0
      = some (true, Unsupported, switchDataType input.data_type v0) :=
  get_types_from_matvart_early_exit input k0 v0 (Or.inr (Or.inr hrank))

/-! ## Empty records, failure, and reads of `dims` -/

/-- C18 (empty records are never scalars): on a non-null record with rank at least 2 in
which some dimension is 0, `get_types_from_matvart` succeeds with a kind that is neither
Element nor Struct; with a scalar data-type code and a class that is neither cell nor
object, sparse, function or opaque, the kind is Vector when the rank is 2 and `dims[0]` or
`dims[1]` is 1 (the other one being the 0), and MultiDimensionalArray otherwise. -/
theorem get_types_from_matvart_empty_record (input : matvar_t) (k0 : VariableType)
    (v0 : ValueType) (hread : input.dimsReadable) (hrank : 2 ≤ input.rank)
    (hzero : 0 ∈ input.loopDims) :
    ∃ k v, get_types_from_matvart (some input) k0 v0 = some (true, k, v) ∧
      k ≠ Element ∧ k ≠ Struct ∧
      (isScalarCode input.data_type = true →
        (input.class_type ≠ MAT_C_CELL ∧ input.class_type ≠ MAT_C_OBJECT ∧
          input.class_type ≠ MAT_C_SPARSE ∧ input.class_type ≠ MAT_C_FUNCTION ∧
          input.class_type ≠ MAT_C_OPAQUE) →
        k = (if input.rank = 2 ∧ (input.dims[0]? = some 1 ∨ input.dims[1]? = some 1)
              then Vector else MultiDimensionalArray)) := by
  have hprod : input.elementCount = 0 := List.prod_eq_zero hzero
  have hne : ¬ input.elementCount % SIZE_T_MODULUS = 1 := by
    rw [hprod]; decide
  obtain ⟨k, hk, -, -, -, -, hone⟩ := get_types_from_matvart_kind_facts input k0 v0 hread
  refine ⟨k, _, hk, ?_, ?_, ?_⟩
  · intro h; exact hne (hone (Or.inl h))
  · intro h; exact hne (hone (Or.inr h))
  · intro hscalar hclass
    obtain ⟨hcell, hcls⟩ := hclass
    have hc := isUninterpretedClass_eq_false input.class_type hcls
    obtain ⟨-, hsv, h1, h2, h3, h4⟩ := switchDataType_of_scalar input.data_type v0 hscalar
    have hexit : ¬ (isUninterpretedClass input.class_type = true ∨
        switchDataType input.data_type v0 = UNSUPPORTED ∨ input.rank < 2) := by
      rintro (h | h | h)
      · rw [hc] at h; exact absurd h (by decide)
      · rw [h] at hsv; exact absurd hsv (by decide)
      · omega
    have hverdict := get_types_from_matvart_verdict input k0 v0 hread
    rw [if_neg hexit, if_neg (by tauto), if_neg hne, if_neg (by tauto)] at hverdict
    rw [hk] at hverdict
    simp only [Option.some.injEq, Prod.mk.injEq, true_and, and_true] at hverdict
    rw [hverdict]
    rfl

/-- Witness of C18: dims [1, 0] and [0, 1] give Vector, dims [0, 0] give
MultiDimensionalArray, and a 0 x 1 record with the struct marker is not a Struct. -/
theorem get_types_from_matvart_empty_record_witness :
    (∃ k v, get_types_from_matvart (some ⟨2, [1, 0], MAT_C_DOUBLE, MAT_T_DOUBLE⟩) Element INT8
        = some (true, k, v) ∧ k ≠ Element ∧ k ≠ Struct ∧
      (isScalarCode MAT_T_DOUBLE = true →
        (MAT_C_DOUBLE ≠ MAT_C_CELL ∧ MAT_C_DOUBLE ≠ MAT_C_OBJECT ∧
          MAT_C_DOUBLE ≠ MAT_C_SPARSE ∧ MAT_C_DOUBLE ≠ MAT_C_FUNCTION ∧
          MAT_C_DOUBLE ≠ MAT_C_OPAQUE) →
        k = (if (2 : Int) = 2 ∧ ([1, 0][0]? = some 1 ∨ [1, 0][1]? = some 1)
              then Vector else MultiDimensionalArray))) ∧
    get_types_from_matvart (some ⟨2, [1, 0], MAT_C_DOUBLE, MAT_T_DOUBLE⟩) Element INT8
      = some (true, Vector, DOUBLE) ∧
    get_types_from_matvart (some ⟨2, [0, 1], MAT_C_DOUBLE, MAT_T_DOUBLE⟩) Element INT8
      = some (true, Vector, DOUBLE) ∧
    get_types_from_matvart (some ⟨2, [0, 0], MAT_C_DOUBLE, MAT_T_DOUBLE⟩) Element INT8
      = some (true, MultiDimensionalArray, DOUBLE) ∧
    get_types_from_matvart (some ⟨2, [0, 1], MAT_C_STRUCT, MAT_T_STRUCT⟩) Element INT8
      = some (true, VariableArray, VARIABLE) :=
  ⟨get_types_from_matvart_empty_record ⟨2, [1, 0], MAT_C_DOUBLE, MAT_T_DOUBLE⟩ Element INT8
     (by decide) (by decide) (by decide),
   by decide, by decide, by decide, by decide⟩

/-- C19 (atomicity on failure): whenever `get_matio_types` returns `false` both output
parameters hold the values they had before the call, and on a null record
`get_types_from_matvart` returns `false` with both of its output parameters unchanged. -/
theorem outputs_unchanged_on_failure (k : VariableType) (v : ValueType) (c0 : matio_classes)
    (t0 : matio_types) (k0 : VariableType) (v0 : ValueType) :
    ((get_matio_types k v c0 t0).1 = false → get_matio_types k v c0 t0 = (false, c0, t0)) ∧
    get_types_from_matvart none k0 v0 = some (false, k0, v0) := by
  refine ⟨?_, rfl⟩
  cases k <;> cases v <;> simp [get_matio_types]

/-- Witness of C19: the failing calls on (Unsupported, INT8) and on (Vector, VARIABLE)
leave the outputs at the cell codes they held. -/
theorem outputs_unchanged_on_failure_witness :
    (get_matio_types Unsupported INT8 MAT_C_CELL MAT_T_CELL).1 = false ∧
    get_matio_types Unsupported INT8 MAT_C_CELL MAT_T_CELL = (false, MAT_C_CELL, MAT_T_CELL) ∧
    get_matio_types Vector VARIABLE MAT_C_CELL MAT_T_CELL = (false, MAT_C_CELL, MAT_T_CELL) :=
  ⟨rfl,
   (outputs_unchanged_on_failure Unsupported INT8 MAT_C_CELL MAT_T_CELL Element INT8).1 rfl,
   (outputs_unchanged_on_failure Vector VARIABLE MAT_C_CELL MAT_T_CELL Element INT8).1 rfl⟩

/-- C20 (index safety): on a non-null record whose dims sequence has length `rank`, no
read of `dims` made by `get_types_from_matvart` is out of bounds: the product loop, which
reads the indices below `rank`, and the vector test both stay inside the array, and the
call returns a result. The loop is reached only with rank at least 2 (with a smaller rank
the call returns the same result on a record without any dims), and the vector test reads
`dims[0]` and `dims[1]` only when the rank is 2 (otherwise it is `false` without dims). -/
theorem get_types_from_matvart_index_safety (input : matvar_t) (k0 : VariableType)
    (v0 : ValueType) (hlen : (input.dims.length : Int) = input.rank) :
    dimensionsProductLoop input.dims input.rank.toNat 0 1 ≠ none ∧
    isVectorShape input ≠ none ∧
    (∃ k v, get_types_from_matvart (some input) k0 v0 = some (true, k, v)) ∧
    (input.rank < 2 →
      get_types_from_matvart (some ⟨input.rank, [], input.class_type, input.data_type⟩) k0 v0
        = get_types_from_matvart (some input) k0 v0) ∧
    (input.rank ≠ 2 →
      isVectorShape ⟨input.rank, [], input.class_type, input.data_type⟩ = some false) := by
  have hread : input.dimsReadable := by
    unfold matvar_t.dimsReadable
    omega
  refine ⟨?_, ?_, ?_, ?_, ?_⟩
  · rw [dimensionsProductLoop_readable input hread]
    exact Option.some_ne_none _
  · rw [isVectorShape_readable input hread]
    exact Option.some_ne_none _
  · obtain ⟨k, hk⟩ := get_types_from_matvart_defined input k0 v0 hread
    exact ⟨k, _, hk⟩
  · intro hlt
    rw [get_types_from_matvart_rank_lt_two input k0 v0 hlt,
      get_types_from_matvart_rank_lt_two ⟨input.rank, [], input.class_type, input.data_type⟩
        k0 v0 hlt]
  · intro hne
    simp [isVectorShape, hne]

/-- Witness of C20: a rank-3 record with three dims is classified, all reads in bounds. -/
theorem get_types_from_matvart_index_safety_witness :
    dimensionsProductLoop [2, 3, 4] 3 0 1 ≠ none ∧
    ∃ k v, get_types_from_matvart (some ⟨3, [2, 3, 4], MAT_C_DOUBLE, MAT_T_DOUBLE⟩) Element INT8
      = some (true, k, v) :=
  ⟨(get_types_from_matvart_index_safety ⟨3, [2, 3, 4], MAT_C_DOUBLE, MAT_T_DOUBLE⟩ Element INT8
      (by decide)).1,
   (get_types_from_matvart_index_safety ⟨3, [2, 3, 4], MAT_C_DOUBLE, MAT_T_DOUBLE⟩ Element INT8
      (by decide)).2.2.1⟩

end matioCpp
